import Mathlib

/-!
Verification of the conversational core of the personal_web repository:
the decision-tree dialogue engine (src/lib/decision-tree.ts), the
knowledge-base / RAG pipeline (src/lib/rag.ts), and the chat turn
orchestrator (the chat API POST handler).

The TypeScript code is shallowly embedded: database tables become lists
carried in explicit state records, external providers (generative model,
embedding model) become function parameters, and fallible calls return
Option results.  All definitions mirror the source line by line.
-/

set_option maxRecDepth 16384

namespace PersonalWeb

/-! ## Decision tree engine (src/lib/decision-tree.ts) -/

structure TreeOption where
  text : String
  value : String
  nextId : String
deriving DecidableEq, Repr

inductive NodeType where
  | multiple_choice
  | ai_handoff
deriving DecidableEq, Repr

structure TreeNode where
  id : String
  message : String
  type : NodeType
  options : List TreeOption
deriving DecidableEq, Repr

/-- The static chatbot tree configuration: a root object with
`id/message/type/options` plus a `nodes` mapping from node identifier to
the same per-node shape (the shape of `chatbot-tree.json`). -/
structure ChatbotTree where
  root : TreeNode
  nodes : List (String × TreeNode)
deriving DecidableEq, Repr

structure DecisionTreeResponse where
  message : String
  options : List TreeOption
  nextNodeId : Option String
  shouldHandoffToAI : Option Bool
deriving DecidableEq, Repr

/-- `DecisionTreeEngine.getStartingNode`: returns the root node. -/
def getStartingNode (t : ChatbotTree) : TreeNode := t.root

/-- `this.tree.nodes[nodeId]`: dictionary lookup in the `nodes` mapping. -/
def lookupNode (t : ChatbotTree) (nodeId : String) : Option TreeNode :=
  (t.nodes.find? (fun p => p.1 == nodeId)).map (fun p => p.2)

/-- The node-resolution step of `processUserChoice`: the identifier
`welcome` resolves to the root, anything else goes through `nodes`. -/
def resolveNode (t : ChatbotTree) (nodeId : String) : Option TreeNode :=
  if nodeId == "welcome" then some t.root else lookupNode t nodeId

/-- `DecisionTreeEngine.getErrorResponse`: fixed apology message, the root
node's options, and `nextNodeId` reset to `welcome`. -/
def getErrorResponse (t : ChatbotTree) : DecisionTreeResponse :=
  { message := "I\x27m sorry, I didn\x27t understand that choice. Let me start over."
    options := t.root.options
    nextNodeId := some "welcome"
    shouldHandoffToAI := none }

/-- `DecisionTreeEngine.processUserChoice`. -/
def processUserChoice (t : ChatbotTree) (currentNodeId userChoice : String) :
    DecisionTreeResponse :=
  match resolveNode t currentNodeId with
  | none => getErrorResponse t
  | some currentNode =>
    match currentNode.options.find? (fun o => o.value == userChoice) with
    | none => getErrorResponse t
    | some selectedOption =>
      match resolveNode t selectedOption.nextId with
      | none => getErrorResponse t
      | some nextNode =>
        if nextNode.type = NodeType.ai_handoff then
          { message := nextNode.message
            options := []
            nextNodeId := none
            shouldHandoffToAI := some true }
        else
          { message := nextNode.message
            options := nextNode.options
            nextNodeId := some selectedOption.nextId
            shouldHandoffToAI := none }

/-- Bad-navigation condition: the current node does not resolve, or it has
no option matching the chosen value, or the matched option's target does
not resolve. -/
def navFails (t : ChatbotTree) (currentNodeId userChoice : String) : Bool :=
  match resolveNode t currentNodeId with
  | none => true
  | some n =>
    match n.options.find? (fun o => o.value == userChoice) with
    | none => true
    | some o => (resolveNode t o.nextId).isNone

/-- A small tree in the configuration format: a greeting root with two
options, one of which targets an `ai_handoff` node. -/
def sampleTree : ChatbotTree :=
  { root :=
      { id := "welcome"
        message := "Hi! What would you like to know about?"
        type := NodeType.multiple_choice
        options :=
          [ { text := "Projects", value := "projects", nextId := "projects" }
          , { text := "Ask the AI", value := "ask_ai", nextId := "ai_mode" } ] }
    nodes :=
      [ ("projects",
         { id := "projects"
           message := "Here are some projects."
           type := NodeType.multiple_choice
           options := [ { text := "Back", value := "back", nextId := "welcome" } ] })
      , ("ai_mode",
         { id := "ai_mode"
           message := "Switching you to the AI assistant."
           type := NodeType.ai_handoff
           options := [] }) ] }

/-- C1 (counterexample): on a tree whose root greeting differs from the
engine's fixed apology text, an unmatched choice does NOT return the root
node's message: the engine answers with the fixed apology instead, so the
claim as stated is false at this concrete input. -/
theorem C1_counterexample :
    sampleTree.root.options.find? (fun o => o.value == "does-not-exist") = none ∧
    ¬ (processUserChoice sampleTree "welcome" "does-not-exist").message
        = sampleTree.root.message := by
  exact ⟨rfl, by decide⟩

/-- C1 (amended): whenever navigation fails (current node unresolvable, no
option with the chosen value, or unresolvable target), `processUserChoice`
does not raise and returns the fixed apology message, the root node's
options, and `nextNodeId = "welcome"`. -/
theorem C1_self_heal (t : ChatbotTree) (currentNodeId userChoice : String)
    (h : navFails t currentNodeId userChoice = true) :
    processUserChoice t currentNodeId userChoice = getErrorResponse t ∧
    (processUserChoice t currentNodeId userChoice).options = t.root.options ∧
    (processUserChoice t currentNodeId userChoice).nextNodeId = some "welcome" := by
  have hmain : processUserChoice t currentNodeId userChoice = getErrorResponse t := by
    unfold navFails at h
    cases hres : resolveNode t currentNodeId with
    | none => simp only [processUserChoice, hres]
    | some n =>
      simp only [hres] at h
      cases hfind : n.options.find? (fun o => o.value == userChoice) with
      | none => simp only [processUserChoice, hres, hfind]
      | some o =>
        simp only [hfind, Option.isNone_iff_eq_none] at h
        simp only [processUserChoice, hres, hfind, h]
  exact ⟨hmain, by rw [hmain]; rfl, by rw [hmain]; rfl⟩

/-- C1 witness: the amended behavior at a concrete bad choice. -/
theorem C1_self_heal_witness :
    navFails sampleTree "welcome" "does-not-exist" = true ∧
    processUserChoice sampleTree "welcome" "does-not-exist"
      = getErrorResponse sampleTree :=
  ⟨rfl, (C1_self_heal sampleTree "welcome" "does-not-exist" rfl).1⟩

/-- C3: selecting an option whose target node's kind is `ai_handoff`
returns that target's message, an empty options list, `handoffToAI = true`
and no `nextNodeId`.  The hypothesis `ho` states that the chosen value
selects this very option (the first one carrying its value token). -/
theorem C3_ai_handoff (t : ChatbotTree) (currentNodeId : String) (n : TreeNode)
    (o : TreeOption) (target : TreeNode)
    (hn : resolveNode t currentNodeId = some n)
    (ho : n.options.find? (fun x => x.value == o.value) = some o)
    (ht : resolveNode t o.nextId = some target)
    (hk : target.type = NodeType.ai_handoff) :
    processUserChoice t currentNodeId o.value =
      { message := target.message
        options := []
        nextNodeId := none
        shouldHandoffToAI := some true } := by
  simp only [processUserChoice, hn, ho, ht]
  rw [if_pos hk]

/-- C3 witness: the `ask_ai` option of the sample tree's root targets the
`ai_mode` handoff node. -/
theorem C3_ai_handoff_witness :
    processUserChoice sampleTree "welcome" "ask_ai" =
      { message := "Switching you to the AI assistant."
        options := []
        nextNodeId := none
        shouldHandoffToAI := some true } :=
  C3_ai_handoff sampleTree "welcome" sampleTree.root
    { text := "Ask the AI", value := "ask_ai", nextId := "ai_mode" }
    { id := "ai_mode", message := "Switching you to the AI assistant."
      type := NodeType.ai_handoff, options := [] }
    rfl rfl rfl rfl

/-! ## Knowledge base and RAG pipeline (src/lib/rag.ts)

The `KnowledgeBase` table becomes a list of rows carried in a `KBState`;
row ids and creation timestamps are drawn from one monotone counter.  The
OpenAI client is a parameter: `none` models an unconfigured client, and a
configured client's single call either succeeds or throws. -/

inductive EntryMetadata where
  | url (path : String)
  | category (name : String)
deriving DecidableEq, Repr

structure KnowledgeRow where
  id : Nat
  title : String
  content : String
  source : String
  sourceId : Option String
  embedding : Option (List Float)
  metadata : Option EntryMetadata
  createdAt : Nat
deriving Repr

structure KBState where
  rows : List KnowledgeRow
  nextId : Nat
deriving Repr

/-- `Omit<KnowledgeBaseEntry, "id">`: the argument of `addToKnowledgeBase`. -/
structure NewEntry where
  title : String
  content : String
  source : String
  sourceId : Option String
  metadata : Option EntryMetadata
deriving DecidableEq, Repr

structure KnowledgeBaseEntry where
  id : Nat
  title : String
  content : String
  source : String
  sourceId : Option String
  metadata : Option EntryMetadata
deriving DecidableEq, Repr

/-- An embedding provider: `some f` is a configured client whose embeddings
call returns a vector or throws (`none`, caught by the inner try). -/
abbrev EmbeddingProvider := Option (String → Option (List Float))

/-- `addToKnowledgeBase`: computes an embedding of `title + " " + content`
when a client is configured, degrades to no embedding when the client is
missing or the call fails, then inserts the row and returns its id. -/
def addToKnowledgeBase (openaiEmbed : EmbeddingProvider) (entry : NewEntry)
    (st : KBState) : Nat × KBState :=
  let embedding : List Float :=
    match openaiEmbed with
    | none => []
    | some f =>
      match f (entry.title ++ " " ++ entry.content) with
      | none => []
      | some v => v
  let row : KnowledgeRow :=
    { id := st.nextId
      title := entry.title
      content := entry.content
      source := entry.source
      sourceId := entry.sourceId
      embedding := if embedding.length > 0 then some embedding else none
      metadata := entry.metadata
      createdAt := st.nextId }
  (st.nextId, { rows := st.rows ++ [row], nextId := st.nextId + 1 })

/-- The prisma `contains` filter: `query` occurs as a contiguous substring
of the row's title or content. -/
def matchesQuery (query : String) (r : KnowledgeRow) : Bool :=
  decide (query.data <:+: r.title.data) || decide (query.data <:+: r.content.data)

/-- `orderBy: { createdAt: "desc" }`. -/
def recentFirst (a b : KnowledgeRow) : Prop := b.createdAt ≤ a.createdAt

instance : DecidableRel recentFirst := fun a b => Nat.decLe b.createdAt a.createdAt

instance : IsTotal KnowledgeRow recentFirst :=
  ⟨fun a b => Nat.le_total b.createdAt a.createdAt⟩

instance : IsTrans KnowledgeRow recentFirst :=
  ⟨fun _ _ _ hab hbc => Nat.le_trans hbc hab⟩

/-- The row set produced by `searchKnowledgeBase`: filter by substring
match, order newest first, take `limit`. -/
def searchRows (st : KBState) (query : String) (limit : Nat) : List KnowledgeRow :=
  ((st.rows.filter (matchesQuery query)).insertionSort recentFirst).take limit

def toEntry (r : KnowledgeRow) : KnowledgeBaseEntry :=
  { id := r.id, title := r.title, content := r.content, source := r.source
    sourceId := r.sourceId, metadata := r.metadata }

/-- `searchKnowledgeBase(query, limit)` in the fallback (non-vector) path. -/
def searchKnowledgeBase (st : KBState) (query : String) (limit : Nat) :
    List KnowledgeBaseEntry :=
  (searchRows st query limit).map toEntry

/-- `searchKnowledgeBase(query)` with the declared default `limit = 5`. -/
def searchKnowledgeBaseDefault (st : KBState) (query : String) :
    List KnowledgeBaseEntry :=
  searchKnowledgeBase st query 5

/-- C7: the fallback search returns at most `limit` rows, each of which
contains the query as a substring of its title or content, ordered
most-recently-created first; the entry list is the image of those rows,
and the default limit is 5. -/
theorem C7_search_fallback (st : KBState) (query : String) (limit : Nat) :
    (searchRows st query limit).length ≤ limit ∧
    (∀ r ∈ searchRows st query limit, matchesQuery query r = true) ∧
    List.Sorted recentFirst (searchRows st query limit) ∧
    searchKnowledgeBase st query limit = (searchRows st query limit).map toEntry ∧
    searchKnowledgeBaseDefault st query = searchKnowledgeBase st query 5 := by
  refine ⟨List.length_take_le _ _, ?_, ?_, rfl, rfl⟩
  · intro r hr
    have h1 : r ∈ (st.rows.filter (matchesQuery query)).insertionSort recentFirst :=
      List.mem_of_mem_take hr
    have h2 : r ∈ st.rows.filter (matchesQuery query) :=
      (List.mem_insertionSort recentFirst).1 h1
    exact List.of_mem_filter h2
  · exact List.Pairwise.sublist (List.take_sublist _ _)
      (List.sorted_insertionSort recentFirst _)

/-- A concrete knowledge row and store used to witness the searches. -/
def searchWitnessRow : KnowledgeRow :=
  { id := 0, title := "Technical Skills Overview"
    content := "Experienced with React and TypeScript."
    source := "manual", sourceId := none, embedding := none
    metadata := none, createdAt := 0 }

def searchWitnessState : KBState := { rows := [searchWitnessRow], nextId := 1 }

/-- C7 witness: the search over a one-row store. -/
theorem C7_search_fallback_witness :
    matchesQuery "React" searchWitnessRow = true ∧
    (searchRows searchWitnessState "React" 5).length ≤ 5 :=
  ⟨(C7_search_fallback searchWitnessState "React" 5).2.1 searchWitnessRow
      (List.mem_singleton.mpr rfl),
   (C7_search_fallback searchWitnessState "React" 5).1⟩

/-- C8: `addToKnowledgeBase` always stores the entry and returns its id;
a missing provider or a failed embedding call degrades to storing the row
with no embedding instead of failing the add; when the provider succeeds
(with a non-empty vector) the stored embedding was computed over
`title ++ " " ++ content`. -/
theorem C8_add_degrades (openaiEmbed : EmbeddingProvider) (entry : NewEntry)
    (st : KBState) :
    ∃ emb : Option (List Float),
      addToKnowledgeBase openaiEmbed entry st =
        (st.nextId,
         { rows := st.rows ++
             [{ id := st.nextId, title := entry.title, content := entry.content
                source := entry.source, sourceId := entry.sourceId
                embedding := emb, metadata := entry.metadata
                createdAt := st.nextId }]
           nextId := st.nextId + 1 }) ∧
      (openaiEmbed = none → emb = none) ∧
      (∀ f, openaiEmbed = some f →
        f (entry.title ++ " " ++ entry.content) = none → emb = none) ∧
      (∀ f v, openaiEmbed = some f →
        f (entry.title ++ " " ++ entry.content) = some v → v ≠ [] →
        emb = some v) := by
  cases openaiEmbed with
  | none =>
    refine ⟨none, by simp [addToKnowledgeBase], fun _ => rfl, ?_, ?_⟩
    · intro f h; cases h
    · intro f v h; cases h
  | some f =>
    cases hf : f (entry.title ++ " " ++ entry.content) with
    | none =>
      refine ⟨none, by simp [addToKnowledgeBase, hf], fun _ => rfl, fun _ _ _ => rfl, ?_⟩
      intro g v hg hv
      cases hg
      rw [hf] at hv
      cases hv
    | some v =>
      cases v with
      | nil =>
        refine ⟨none, by simp [addToKnowledgeBase, hf], fun _ => rfl, fun _ _ _ => rfl, ?_⟩
        intro g w hg hw hne
        cases hg
        rw [hf] at hw
        cases hw
        exact absurd rfl hne
      | cons x xs =>
        refine ⟨some (x :: xs), by simp [addToKnowledgeBase, hf], ?_, ?_, ?_⟩
        · intro h; cases h
        · intro g hg hw
          cases hg
          rw [hf] at hw
          cases hw
        · intro g w hg hw _
          cases hg
          rw [hf] at hw
          cases hw
          rfl

def addWitnessEntry : NewEntry :=
  { title := "T", content := "C", source := "manual", sourceId := none, metadata := none }

/-- C8 witness: a successful embedding call stores its vector. -/
theorem C8_add_degrades_witness :
    (addToKnowledgeBase (some (fun _ => some [(1 : Float)])) addWitnessEntry
        { rows := [], nextId := 0 }).2.rows =
      [{ id := 0, title := "T", content := "C", source := "manual"
         sourceId := none, embedding := some [(1 : Float)], metadata := none
         createdAt := 0 }] := by
  obtain ⟨emb, h1, _h2, _h3, h4⟩ :=
    C8_add_degrades (some (fun _ => some [(1 : Float)])) addWitnessEntry
      { rows := [], nextId := 0 }
  have hemb : emb = some [(1 : Float)] := h4 _ _ rfl rfl (by simp)
  rw [h1, hemb]
  rfl

/-! ### Response generation (`generateRAGResponse`) -/

/-- JavaScript `Array.join(sep)`. -/
def joinSep (sep : String) : List String → String
  | [] => ""
  | [s] => s
  | s :: rest => s ++ sep ++ joinSep sep rest

/-- The outcome of the single chat-completions call: the request throws,
or returns `choices[0]?.message?.content` (possibly absent). -/
inductive ChatResult where
  | throws
  | ok (content : Option String)
deriving DecidableEq, Repr

/-- A generative provider: `none` models an unconfigured OpenAI client;
`some complete` takes the system prompt and the user query. -/
abbrev ChatProvider := Option (String → String → ChatResult)

def ragHeader : String := "Based on the available information:\n\n"

def unavailableNote : String :=
  "Please note: AI responses are currently unavailable. For more detailed information, you can explore the projects section or contact directly."

def deflectionMessage : String :=
  "I found some information related to your query, but AI responses are currently unavailable. Please explore the projects and blog sections for more details, or feel free to contact directly."

def emptyOutputApology : String :=
  "I apologize, but I was unable to generate a response at this time."

def errorApology : String :=
  "I apologize, but I encountered an error while processing your request. Please try again or rephrase your question."

/-- The system prompt of the generative path, embedding the retrieved
snippets and the additional conversation context. -/
def buildSystemPrompt (contextString context : String) : String :=
  "You are a helpful assistant representing a portfolio website owner. You have access to information about their projects, skills, and experience. Use the provided context to answer questions accurately and conversationally.\n\nContext information:\n"
    ++ contextString
    ++ "\n\nAdditional context: " ++ context
    ++ "\n\nGuidelines:\n- Be conversational and friendly\n- Provide specific details from the context when relevant\n- If you don\x27t have enough information, say so and suggest alternatives\n- Focus on projects, technical skills, and professional experience\n- Keep responses concise but informative"

def ragSystemPrompt (st : KBState) (query context : String) : String :=
  buildSystemPrompt
    (joinSep "\n\n" ((searchKnowledgeBaseDefault st query).map
      (fun doc => doc.title ++ ": " ++ doc.content)))
    context

/-- `generateRAGResponse(query, context)`: three-tier degradation.  The
outer try/catch of the source and the catch inside the search are
reflected in the totality of this function together with the explicit
`ChatResult.throws` case. -/
def generateRAGResponse (openaiChat : ChatProvider) (st : KBState)
    (query context : String) : String :=
  match openaiChat with
  | none =>
    let relevantDocs := searchKnowledgeBaseDefault st query
    if relevantDocs.length > 0 then
      let contextString :=
        joinSep "\n\n"
          ((relevantDocs.map (fun doc => doc.title ++ ": " ++ doc.content)).take 2)
      ragHeader ++ contextString ++ "\n\n" ++ unavailableNote
    else
      deflectionMessage
  | some complete =>
    match complete (ragSystemPrompt st query context) query with
    | ChatResult.throws => errorApology
    | ChatResult.ok none => emptyOutputApology
    | ChatResult.ok (some s) => if s = "" then emptyOutputApology else s

/-- `sub` occurs as a contiguous substring of `s`. -/
def containsSubstr (s sub : String) : Bool := decide (sub.data <:+: s.data)

theorem infix_append_left {α : Type} (pre : List α) {l sub : List α}
    (h : sub <:+: l) : sub <:+: pre ++ l := by
  obtain ⟨a, b, e⟩ := h
  exact ⟨pre ++ a, b, by rw [← e]; simp [List.append_assoc]⟩

theorem infix_append_right {α : Type} (post : List α) {l sub : List α}
    (h : sub <:+: l) : sub <:+: l ++ post := by
  obtain ⟨a, b, e⟩ := h
  exact ⟨a, b ++ post, by rw [← e]; simp [List.append_assoc]⟩

theorem containsSubstr_front (s post : String) :
    containsSubstr (s ++ post) s = true := by
  unfold containsSubstr
  rw [decide_eq_true_iff, String.data_append]
  exact infix_append_right _ ⟨[], [], by simp⟩

theorem containsSubstr_suffix (pre s : String) :
    containsSubstr (pre ++ s) s = true := by
  unfold containsSubstr
  rw [decide_eq_true_iff, String.data_append]
  exact infix_append_left _ ⟨[], [], by simp⟩

theorem containsSubstr_append_left (pre s sub : String)
    (h : containsSubstr s sub = true) :
    containsSubstr (pre ++ s) sub = true := by
  unfold containsSubstr at *
  rw [decide_eq_true_iff] at *
  rw [String.data_append]
  exact infix_append_left _ h

theorem containsSubstr_append_right (s post sub : String)
    (h : containsSubstr s sub = true) :
    containsSubstr (s ++ post) sub = true := by
  unfold containsSubstr at *
  rw [decide_eq_true_iff] at *
  rw [String.data_append]
  exact infix_append_right _ h

theorem append_ne_empty_left (s t : String) (h : s ≠ "") : s ++ t ≠ "" := by
  intro he
  apply h
  have hd : (s ++ t).data = [] := by rw [he]
  rw [String.data_append] at hd
  exact String.ext (List.append_eq_nil.1 hd).1

/-- The degraded no-provider response is never the empty string. -/
theorem generateRAG_none_ne_empty (st : KBState) (query context : String) :
    generateRAGResponse none st query context ≠ "" := by
  cases hdocs : searchKnowledgeBaseDefault st query with
  | nil =>
    have : generateRAGResponse none st query context = deflectionMessage := by
      unfold generateRAGResponse
      rw [hdocs]
      rfl
    rw [this]
    decide
  | cons d0 ds0 =>
    have : generateRAGResponse none st query context =
        ragHeader ++
          joinSep "\n\n"
            (((d0 :: ds0).map (fun doc => doc.title ++ ": " ++ doc.content)).take 2)
          ++ "\n\n" ++ unavailableNote := by
      unfold generateRAGResponse
      rw [hdocs]
      show (if (d0 :: ds0).length > 0 then
          ragHeader ++
            joinSep "\n\n"
              (((d0 :: ds0).map (fun doc => doc.title ++ ": " ++ doc.content)).take 2)
            ++ "\n\n" ++ unavailableNote
        else deflectionMessage) = _
      rw [if_pos (by simp)]
    rw [this]
    exact append_ne_empty_left _ _
      (append_ne_empty_left _ _ (append_ne_empty_left _ _ (by decide)))

/-- C2: with no generative provider, a non-empty retrieval yields a
templated answer containing the unavailability disclosure and the first
retrieved entry's title; an empty retrieval yields the fixed deflection
message; the response is never empty. -/
theorem C2_no_provider_degrades (st : KBState) (query context : String) :
    (∀ d ds, searchKnowledgeBaseDefault st query = d :: ds →
      containsSubstr (generateRAGResponse none st query context) unavailableNote = true ∧
      containsSubstr (generateRAGResponse none st query context) d.title = true) ∧
    (searchKnowledgeBaseDefault st query = [] →
      generateRAGResponse none st query context = deflectionMessage) ∧
    generateRAGResponse none st query context ≠ "" := by
  refine ⟨?_, ?_, generateRAG_none_ne_empty st query context⟩
  · intro d ds hdocs
    have hres : generateRAGResponse none st query context =
        ragHeader ++
          joinSep "\n\n"
            (((d :: ds).map (fun doc => doc.title ++ ": " ++ doc.content)).take 2)
          ++ "\n\n" ++ unavailableNote := by
      unfold generateRAGResponse
      rw [hdocs]
      show (if (d :: ds).length > 0 then
          ragHeader ++
            joinSep "\n\n"
              (((d :: ds).map (fun doc => doc.title ++ ": " ++ doc.content)).take 2)
            ++ "\n\n" ++ unavailableNote
        else deflectionMessage) = _
      rw [if_pos (by simp)]
    rw [hres]
    refine ⟨containsSubstr_suffix _ _, ?_⟩
    apply containsSubstr_append_right
    apply containsSubstr_append_right
    apply containsSubstr_append_left
    cases ds with
    | nil =>
      show containsSubstr (d.title ++ ": " ++ d.content) d.title = true
      exact containsSubstr_append_right _ _ _ (containsSubstr_front d.title ": ")
    | cons d1 ds1 =>
      show containsSubstr
        ((d.title ++ ": " ++ d.content) ++ "\n\n" ++ (d1.title ++ ": " ++ d1.content))
        d.title = true
      apply containsSubstr_append_right
      apply containsSubstr_append_right
      exact containsSubstr_append_right _ _ _ (containsSubstr_front d.title ": ")
  · intro hdocs
    unfold generateRAGResponse
    rw [hdocs]
    rfl

/-- C2 witness: a store whose single row matches, and the empty store. -/
theorem C2_no_provider_degrades_witness :
    containsSubstr (generateRAGResponse none searchWitnessState "React" "")
      unavailableNote = true ∧
    containsSubstr (generateRAGResponse none searchWitnessState "React" "")
      "Technical Skills Overview" = true ∧
    generateRAGResponse none { rows := [], nextId := 0 } "React" "" = deflectionMessage := by
  have h1 := (C2_no_provider_degrades searchWitnessState "React" "").1
    (toEntry searchWitnessRow) [] rfl
  have h2 := (C2_no_provider_degrades { rows := [], nextId := 0 } "React" "").2.1 rfl
  exact ⟨h1.1, h1.2, h2⟩

/-- C4: `generateRAGResponse` never raises and never returns the empty
string; when the provider call throws it returns the fixed error apology,
and when the provider returns no content or empty content it returns the
fixed empty-output apology. -/
theorem C4_provider_errors (oai : ChatProvider) (st : KBState)
    (query context : String) :
    generateRAGResponse oai st query context ≠ "" ∧
    (∀ complete, oai = some complete →
      (complete (ragSystemPrompt st query context) query = ChatResult.throws →
        generateRAGResponse oai st query context = errorApology) ∧
      (complete (ragSystemPrompt st query context) query = ChatResult.ok none →
        generateRAGResponse oai st query context = emptyOutputApology) ∧
      (complete (ragSystemPrompt st query context) query = ChatResult.ok (some "") →
        generateRAGResponse oai st query context = emptyOutputApology)) := by
  cases oai with
  | none =>
    refine ⟨generateRAG_none_ne_empty st query context, ?_⟩
    intro complete h
    cases h
  | some complete =>
    cases hcall : complete (ragSystemPrompt st query context) query with
    | throws =>
      have hres : generateRAGResponse (some complete) st query context = errorApology := by
        show (match complete (ragSystemPrompt st query context) query with
              | ChatResult.throws => errorApology
              | ChatResult.ok none => emptyOutputApology
              | ChatResult.ok (some s) => if s = "" then emptyOutputApology else s) = errorApology
        rw [hcall]
      refine ⟨by rw [hres]; decide, ?_⟩
      intro c hc
      cases hc
      refine ⟨fun _ => hres, fun h => ?_, fun h => ?_⟩
      · rw [hcall] at h; cases h
      · rw [hcall] at h; cases h
    | ok content =>
      cases content with
      | none =>
        have hres : generateRAGResponse (some complete) st query context
            = emptyOutputApology := by
          show (match complete (ragSystemPrompt st query context) query with
                | ChatResult.throws => errorApology
                | ChatResult.ok none => emptyOutputApology
                | ChatResult.ok (some s) => if s = "" then emptyOutputApology else s) = emptyOutputApology
          rw [hcall]
        refine ⟨by rw [hres]; decide, ?_⟩
        intro c hc
        cases hc
        refine ⟨fun h => ?_, fun _ => hres, fun h => ?_⟩
        · rw [hcall] at h; cases h
        · rw [hcall] at h; cases h
      | some s =>
        have hres : generateRAGResponse (some complete) st query context
            = if s = "" then emptyOutputApology else s := by
          show (match complete (ragSystemPrompt st query context) query with
                | ChatResult.throws => errorApology
                | ChatResult.ok none => emptyOutputApology
                | ChatResult.ok (some s) => if s = "" then emptyOutputApology else s) = (if s = "" then emptyOutputApology else s)
          rw [hcall]
        constructor
        · rw [hres]
          by_cases hs : s = ""
          · rw [if_pos hs]; decide
          · rw [if_neg hs]; exact hs
        · intro c hc
          cases hc
          refine ⟨fun h => ?_, fun h => ?_, fun h => ?_⟩
          · rw [hcall] at h; cases h
          · rw [hcall] at h; cases h
          · rw [hcall] at h
            injection h with h1
            injection h1 with h2
            rw [hres, h2]
            rfl

/-- C4 witness: a provider whose call always throws. -/
theorem C4_provider_errors_witness :
    generateRAGResponse (some (fun _ _ => ChatResult.throws)) searchWitnessState
      "q" "" = errorApology ∧
    generateRAGResponse (some (fun _ _ => ChatResult.throws)) searchWitnessState
      "q" "" ≠ "" :=
  ⟨(((C4_provider_errors (some (fun _ _ => ChatResult.throws)) searchWitnessState
        "q" "").2 (fun _ _ => ChatResult.throws) rfl).1) rfl,
   (C4_provider_errors (some (fun _ _ => ChatResult.throws)) searchWitnessState
      "q" "").1⟩

/-! ### Knowledge-base rebuild (`populateKnowledgeBase`) -/

/-- The fields of the `Project` table used by the rebuild. -/
structure Project where
  id : String
  title : String
  description : Option String
  metadata : Option String
  published : Bool
deriving DecidableEq, Repr

/-- The fields of the `BlogPost` table used by the rebuild. -/
structure BlogPost where
  id : String
  slug : String
  title : String
  excerpt : Option String
  content : String
  published : Bool
deriving DecidableEq, Repr

/-- The entry added for a published project: content is the description
followed by the serialized metadata. -/
def projectEntry (p : Project) : NewEntry :=
  { title := p.title
    content := p.description.getD "" ++ " " ++ p.metadata.getD ""
    source := "project"
    sourceId := some p.id
    metadata := some (EntryMetadata.url ("/projects/" ++ p.id)) }

/-- The entry added for a published blog post: excerpt followed by body. -/
def blogEntry (post : BlogPost) : NewEntry :=
  { title := post.title
    content := post.excerpt.getD "" ++ " " ++ post.content
    source := "blog"
    sourceId := some post.id
    metadata := some (EntryMetadata.url ("/blog/" ++ post.slug)) }

/-- The fixed list of manual knowledge entries. -/
def manualEntries : List NewEntry :=
  [ { title := "Technical Skills Overview"
      content := "Full-stack developer with expertise in React, Next.js, TypeScript, Node.js, PostgreSQL, and AWS. Experienced in building scalable web applications with modern development practices including testing, CI/CD, and security best practices."
      source := "manual", sourceId := none
      metadata := some (EntryMetadata.category "skills") }
  , { title := "Development Philosophy"
      content := "Believes in writing clean, maintainable code with comprehensive testing. Focuses on user experience, performance optimization, and accessibility. Enjoys working with modern technologies and staying current with industry best practices."
      source := "manual", sourceId := none
      metadata := some (EntryMetadata.category "approach") }
  , { title := "Portfolio Website Features"
      content := "This Netflix-style portfolio website demonstrates advanced React animations, AWS integration, full-stack development capabilities, and AI-powered features. Built with Next.js 14, TypeScript, Tailwind CSS, and deployed on AWS infrastructure."
      source := "manual", sourceId := none
      metadata := some (EntryMetadata.category "portfolio") } ]

/-- A sequential loop of `addToKnowledgeBase` calls. -/
def addAll (openaiEmbed : EmbeddingProvider) (entries : List NewEntry)
    (st : KBState) : KBState :=
  entries.foldl (fun s e => (addToKnowledgeBase openaiEmbed e s).2) st

/-- `populateKnowledgeBase`: delete every existing entry, then add one
entry per published project, one per published blog post, and the fixed
manual entries, in that order. -/
def populateKnowledgeBase (openaiEmbed : EmbeddingProvider)
    (projects : List Project) (blogPosts : List BlogPost)
    (st : KBState) : KBState :=
  addAll openaiEmbed manualEntries
    (addAll openaiEmbed ((blogPosts.filter (fun b => b.published)).map blogEntry)
      (addAll openaiEmbed ((projects.filter (fun p => p.published)).map projectEntry)
        { rows := [], nextId := st.nextId }))

/-- The content-bearing fields of a stored row (what `addToKnowledgeBase`
was asked to store, forgetting the row id, timestamp and embedding). -/
def rowView (r : KnowledgeRow) : NewEntry :=
  { title := r.title, content := r.content, source := r.source
    sourceId := r.sourceId, metadata := r.metadata }

theorem addToKnowledgeBase_rows (P : EmbeddingProvider) (e : NewEntry)
    (st : KBState) :
    ∃ row : KnowledgeRow,
      (addToKnowledgeBase P e st).2.rows = st.rows ++ [row] ∧
      rowView row = e ∧ row.id = st.nextId ∧
      (addToKnowledgeBase P e st).2.nextId = st.nextId + 1 :=
  ⟨_, rfl, rfl, rfl, rfl⟩

theorem addAll_rows_view (P : EmbeddingProvider) (es : List NewEntry) :
    ∀ st : KBState,
      ((addAll P es st).rows).map rowView = st.rows.map rowView ++ es := by
  induction es with
  | nil => intro st; simp [addAll]
  | cons e es ih =>
    intro st
    have h1 : addAll P (e :: es) st = addAll P es (addToKnowledgeBase P e st).2 := rfl
    obtain ⟨row, hrows, hview, _, _⟩ := addToKnowledgeBase_rows P e st
    rw [h1, ih, hrows]
    simp [hview]

theorem addAll_ids (P : EmbeddingProvider) (es : List NewEntry) :
    ∀ st : KBState,
      (∀ r ∈ (addAll P es st).rows, r ∈ st.rows ∨ st.nextId ≤ r.id) ∧
      st.nextId ≤ (addAll P es st).nextId := by
  induction es with
  | nil => intro st; exact ⟨fun r hr => Or.inl hr, Nat.le_refl _⟩
  | cons e es ih =>
    intro st
    obtain ⟨row, hrows, _, hid, hnext⟩ := addToKnowledgeBase_rows P e st
    have h1 : addAll P (e :: es) st = addAll P es (addToKnowledgeBase P e st).2 := rfl
    obtain ⟨ihmem, ihnext⟩ := ih (addToKnowledgeBase P e st).2
    constructor
    · intro r hr
      rw [h1] at hr
      rcases ihmem r hr with hin | hle
      · rw [hrows] at hin
        rcases List.mem_append.1 hin with hmem | hmem
        · exact Or.inl hmem
        · right
          rw [List.mem_singleton.1 hmem, hid]
      · right
        rw [hnext] at hle
        omega
    · rw [h1]
      rw [hnext] at ihnext
      omega

/-- C5: the rebuild is a full replacement: afterwards the stored rows are
exactly one entry per published project, then one per published blog post,
then the fixed manual entries; and under the id invariant of the store, a
search performed after the rebuild never returns a row that existed before
it. -/
theorem C5_rebuild_full_replace (P : EmbeddingProvider)
    (projects : List Project) (blogPosts : List BlogPost) (st : KBState)
    (hinv : ∀ r ∈ st.rows, r.id < st.nextId) :
    ((populateKnowledgeBase P projects blogPosts st).rows).map rowView =
      (projects.filter (fun p => p.published)).map projectEntry ++
        (blogPosts.filter (fun b => b.published)).map blogEntry ++ manualEntries ∧
    ∀ query limit r,
      r ∈ searchRows (populateKnowledgeBase P projects blogPosts st) query limit →
        r ∉ st.rows := by
  constructor
  · unfold populateKnowledgeBase
    rw [addAll_rows_view, addAll_rows_view, addAll_rows_view]
    simp
  · intro query limit r hr
    have hrows : r ∈ (populateKnowledgeBase P projects blogPosts st).rows := by
      have h1 : r ∈ ((populateKnowledgeBase P projects blogPosts st).rows.filter
          (matchesQuery query)).insertionSort recentFirst :=
        List.mem_of_mem_take hr
      exact List.mem_filter.1 ((List.mem_insertionSort recentFirst).1 h1) |>.1
    have hfresh : st.nextId ≤ r.id := by
      unfold populateKnowledgeBase at hrows
      set s0 : KBState := { rows := [], nextId := st.nextId } with hs0
      set s1 := addAll P ((projects.filter (fun p => p.published)).map projectEntry) s0
        with hs1
      set s2 := addAll P ((blogPosts.filter (fun b => b.published)).map blogEntry) s1
        with hs2
      have hn1 : st.nextId ≤ s1.nextId := (addAll_ids P _ s0).2
      have hn2 : s1.nextId ≤ s2.nextId := (addAll_ids P _ s1).2
      rcases (addAll_ids P manualEntries s2).1 r hrows with hin2 | hle
      · rcases (addAll_ids P _ s1).1 r hin2 with hin1 | hle
        · rcases (addAll_ids P _ s0).1 r hin1 with hin0 | hle
          · rw [hs0] at hin0
            cases hin0
          · exact hle
        · omega
      · omega
    intro hold
    have := hinv r hold
    omega

def oldRow : KnowledgeRow :=
  { id := 0, title := "Old entry", content := "Stale content before rebuild"
    source := "manual", sourceId := none, embedding := none
    metadata := none, createdAt := 0 }

def oldState : KBState := { rows := [oldRow], nextId := 1 }

def witnessProject : Project :=
  { id := "p1", title := "Proj", description := some "desc"
    metadata := none, published := true }

/-- The single row created for `witnessProject` by the rebuild over
`oldState` (the counter stood at 1). -/
def rebuiltProjectRow : KnowledgeRow :=
  { id := 1, title := "Proj", content := "desc "
    source := "project", sourceId := some "p1", embedding := none
    metadata := some (EntryMetadata.url "/projects/p1"), createdAt := 1 }

/-- C5 witness: after a rebuild from one published project and no posts,
the search for "Proj" returns the freshly created row, which is not one of
the pre-rebuild rows. -/
theorem C5_rebuild_full_replace_witness :
    rebuiltProjectRow ∈ searchRows (populateKnowledgeBase none [witnessProject] []
      oldState) "Proj" 5 ∧
    rebuiltProjectRow ∉ oldState.rows := by
  have hmem : rebuiltProjectRow ∈ searchRows (populateKnowledgeBase none
      [witnessProject] [] oldState) "Proj" 5 := by
    have : searchRows (populateKnowledgeBase none [witnessProject] [] oldState)
        "Proj" 5 = rebuiltProjectRow ::
          (searchRows (populateKnowledgeBase none [witnessProject] [] oldState)
            "Proj" 5).tail := rfl
    rw [this]
    exact List.mem_cons_self _ _
  refine ⟨hmem, ?_⟩
  exact (C5_rebuild_full_replace none [witnessProject] [] oldState
    (by intro r hr; rw [List.mem_singleton.1 hr]; decide)).2 "Proj" 5
    rebuiltProjectRow hmem

/-! ## Conversation orchestrator (the chat API POST handler)

The handler is embedded as a pure state transition on a `ChatDB` holding
the `ChatConversation` and `ChatMessage` tables.  Record ids and
timestamps come from one monotone counter, so the message list is kept in
timestamp order, matching the `orderBy: timestamp asc` retrieval.  The RAG
pipeline is passed in as the function `rag`. -/

/-- A member of the loosely-typed `options` array of the response:
tree options carry `nextId`, the synthesized return-to-tree option
carries `action`/`mode`. -/
structure RespOption where
  text : String
  value : String
  nextId : Option String
  action : Option String
  mode : Option String
deriving DecidableEq, Repr

def optToResp (o : TreeOption) : RespOption :=
  { text := o.text, value := o.value, nextId := some o.nextId
    action := none, mode := none }

/-- The synthesized "return to guided conversation" option. -/
def backToTreeOption : RespOption :=
  { text := "Return to guided conversation", value := "back_to_tree"
    nextId := none, action := some "switch_mode", mode := some "tree" }

/-- The serialized metadata stored with each assistant message. -/
structure MsgMetadata where
  mode : String
  options : List RespOption
  nextNodeId : Option String
deriving DecidableEq, Repr

structure ChatMessageRec where
  id : Nat
  conversationId : Nat
  role : String
  content : String
  messageType : String
  metadata : Option MsgMetadata
  timestamp : Nat
deriving DecidableEq, Repr

structure Conversation where
  id : Nat
  sessionId : String
deriving DecidableEq, Repr

structure ChatDB where
  conversations : List Conversation
  messages : List ChatMessageRec
  nextId : Nat
deriving DecidableEq, Repr

/-- The parsed request body of a turn. -/
structure TurnRequest where
  message : Option String
  sessionId : Option String
  conversationId : Option Nat
  mode : Option String
  currentNodeId : Option String
  userChoice : Option String
deriving DecidableEq, Repr

inductive ApiResponse where
  | ok (message : String) (options : List RespOption) (conversationId : Nat)
      (messageId : Nat) (mode : String) (nextNodeId : Option String)
  | error (status : Nat) (msg : String)
deriving DecidableEq, Repr

/-- JavaScript truthiness of an optional string field. -/
def truthy : Option String → Bool
  | none => false
  | some s => !(s == "")

/-- `conversation.messages` as loaded by `findUnique` with
`orderBy: { timestamp: "asc" }` (the store appends in timestamp order). -/
def convMessages (db : ChatDB) (cid : Nat) : List ChatMessageRec :=
  db.messages.filter (fun m => m.conversationId == cid)

/-- JavaScript `Array.slice(-n)`. -/
def lastN (n : Nat) (l : List ChatMessageRec) : List ChatMessageRec :=
  l.drop (l.length - n)

/-- The assistant `ChatMessage` persisted at the end of every successful
turn: `messageType` depends on the declared mode, and metadata captures
the resulting mode, options and next node pointer. -/
def mkAssistantMessage (db : ChatDB) (convId : Nat) (origMode newMode : String)
    (responseMessage : String) (options : List RespOption)
    (nextNodeId : Option String) : ChatMessageRec :=
  { id := db.nextId
    conversationId := convId
    role := "assistant"
    content := responseMessage
    messageType := if origMode = "tree" then "decision_tree" else "text"
    metadata := some { mode := newMode, options := options, nextNodeId := nextNodeId }
    timestamp := db.nextId }

/-- The chat API `POST` handler. -/
def handlePOST (tree : ChatbotTree) (rag : String → String → String)
    (req : TurnRequest) (db : ChatDB) : ApiResponse × ChatDB :=
  let found : Option (Conversation × List ChatMessageRec) × ChatDB :=
    match req.conversationId with
    | some cid =>
      (match db.conversations.find? (fun c => c.id == cid) with
       | some c => some (c, convMessages db cid)
       | none => none,
       db)
    | none =>
      let sid :=
        match req.sessionId with
        | some s => if s = "" then "uuid-" ++ toString db.nextId else s
        | none => "uuid-" ++ toString db.nextId
      let c : Conversation := { id := db.nextId, sessionId := sid }
      (some (c, []),
       { db with conversations := db.conversations ++ [c], nextId := db.nextId + 1 })
  match found with
  | (none, db1) => (ApiResponse.error 404 "Conversation not found", db1)
  | (some (conv, msgs), db1) =>
    let mode := req.mode.getD "tree"
    if mode = "tree" then
      if !(truthy req.currentNodeId) && !(truthy req.userChoice) then
        let startingNode := getStartingNode tree
        let options := startingNode.options.map optToResp
        let assistant := mkAssistantMessage db1 conv.id mode mode
          startingNode.message options (some startingNode.id)
        (ApiResponse.ok startingNode.message options conv.id assistant.id mode
          (some startingNode.id),
         { db1 with messages := db1.messages ++ [assistant], nextId := db1.nextId + 1 })
      else if truthy req.currentNodeId && truthy req.userChoice then
        let tr := processUserChoice tree (req.currentNodeId.getD "")
          (req.userChoice.getD "")
        let newMode := if tr.shouldHandoffToAI = some true then "ai" else mode
        let options := tr.options.map optToResp
        let assistant := mkAssistantMessage db1 conv.id mode newMode
          tr.message options tr.nextNodeId
        (ApiResponse.ok tr.message options conv.id assistant.id newMode tr.nextNodeId,
         { db1 with messages := db1.messages ++ [assistant], nextId := db1.nextId + 1 })
      else
        (ApiResponse.error 400 "Invalid tree mode request", db1)
    else if mode = "ai" then
      if truthy req.message then
        let m := req.message.getD ""
        let userMsg : ChatMessageRec :=
          { id := db1.nextId, conversationId := conv.id, role := "user"
            content := m, messageType := "text", metadata := none
            timestamp := db1.nextId }
        let db2 : ChatDB :=
          { db1 with messages := db1.messages ++ [userMsg], nextId := db1.nextId + 1 }
        let conversationContext :=
          joinSep "\n" ((lastN 6 msgs).map (fun msg => msg.role ++ ": " ++ msg.content))
        let responseMessage := rag m conversationContext
        let options := [backToTreeOption]
        let assistant := mkAssistantMessage db2 conv.id mode "ai"
          responseMessage options none
        (ApiResponse.ok responseMessage options conv.id assistant.id "ai" none,
         { db2 with messages := db2.messages ++ [assistant], nextId := db2.nextId + 1 })
      else
        (ApiResponse.error 400 "Message is required for AI mode", db1)
    else
      (ApiResponse.error 400 "Invalid mode", db1)

/-- C10: a turn carrying a conversationId that matches no stored
conversation is rejected with 404 and the store is untouched: no new
conversation and no messages. -/
theorem C10_unknown_conversation (tree : ChatbotTree)
    (rag : String → String → String) (req : TurnRequest) (db : ChatDB) (cid : Nat)
    (hcid : req.conversationId = some cid)
    (hnone : db.conversations.find? (fun c => c.id == cid) = none) :
    handlePOST tree rag req db = (ApiResponse.error 404 "Conversation not found", db) := by
  simp only [handlePOST, hcid, hnone]

/-- C10 witness: unknown id `5` against an empty store. -/
theorem C10_unknown_conversation_witness :
    handlePOST sampleTree (fun _ c => c)
      { message := some "hi", sessionId := none, conversationId := some 5
        mode := some "ai", currentNodeId := none, userChoice := none }
      { conversations := [], messages := [], nextId := 0 } =
      (ApiResponse.error 404 "Conversation not found",
       { conversations := [], messages := [], nextId := 0 }) :=
  C10_unknown_conversation sampleTree (fun _ c => c) _ _ 5 rfl rfl

/-- C9: an AI-mode turn with a missing or empty message is rejected with a
400 validation error and no message record is persisted (when the request
carries a conversationId it must resolve; a fresh conversation record may
still be created when none was supplied, but no message ever is). -/
theorem C9_ai_empty_message (tree : ChatbotTree)
    (rag : String → String → String) (req : TurnRequest) (db : ChatDB)
    (hmode : req.mode = some "ai")
    (hmsg : truthy req.message = false)
    (hres : req.conversationId = none ∨
      ∃ cid conv, req.conversationId = some cid ∧
        db.conversations.find? (fun c => c.id == cid) = some conv) :
    (handlePOST tree rag req db).1 = ApiResponse.error 400 "Message is required for AI mode" ∧
    (handlePOST tree rag req db).2.messages = db.messages := by
  rcases hres with hnone | ⟨cid, conv, hcid, hfound⟩
  · simp only [handlePOST, hnone, hmode, hmsg, Option.getD_some]
    simp
  · simp only [handlePOST, hcid, hfound, hmode, hmsg, Option.getD_some]
    simp

/-- C9 witness: AI mode with an empty message against an existing
conversation. -/
theorem C9_ai_empty_message_witness :
    (handlePOST sampleTree (fun _ c => c)
        { message := some "", sessionId := none, conversationId := some 0
          mode := some "ai", currentNodeId := none, userChoice := none }
        { conversations := [{ id := 0, sessionId := "s" }], messages := []
          nextId := 1 }).1
      = ApiResponse.error 400 "Message is required for AI mode" ∧
    (handlePOST sampleTree (fun _ c => c)
        { message := some "", sessionId := none, conversationId := some 0
          mode := some "ai", currentNodeId := none, userChoice := none }
        { conversations := [{ id := 0, sessionId := "s" }], messages := []
          nextId := 1 }).2.messages = [] :=
  C9_ai_empty_message sampleTree (fun _ c => c) _ _ rfl rfl
    (Or.inr ⟨0, { id := 0, sessionId := "s" }, rfl, rfl⟩)

/-- C6 (counterexample): an AI-mode turn on a fresh conversation with
message "hi", run with a RAG function that echoes the context it is
given.  The echoed context — visible as the response message — is the
empty string, but the most recent messages of the conversation at the
moment the context is built (everything persisted so far, i.e. all final
messages except the assistant reply) join to "user: hi".  So the context
is NOT built from the conversation including the just-persisted user
message, refuting the claim as stated at this input. -/
theorem C6_counterexample :
    (handlePOST sampleTree (fun _ c => c)
        { message := some "hi", sessionId := none, conversationId := some 0
          mode := some "ai", currentNodeId := none, userChoice := none }
        { conversations := [{ id := 0, sessionId := "s" }], messages := []
          nextId := 1 }).1
      = ApiResponse.ok "" [backToTreeOption] 0 2 "ai" none ∧
    joinSep "\n"
      ((lastN 6 ((convMessages
          (handlePOST sampleTree (fun _ c => c)
            { message := some "hi", sessionId := none, conversationId := some 0
              mode := some "ai", currentNodeId := none, userChoice := none }
            { conversations := [{ id := 0, sessionId := "s" }], messages := []
              nextId := 1 }).2 0).dropLast)).map
        (fun msg => msg.role ++ ": " ++ msg.content))
      = "user: hi" ∧
    ("" : String) ≠ "user: hi" := by
  refine ⟨rfl, rfl, by decide⟩

/-- C6 (amended): in an AI-mode turn the user's message is persisted
before the assistant's reply; the generation context is built from the
most recent 6 messages of the conversation as loaded at the start of the
turn — which excludes the just-persisted user message — oldest of those
six first, joined as `role: content` lines, and that context is what is
passed to the RAG answer function. -/
theorem C6_ai_context (tree : ChatbotTree) (rag : String → String → String)
    (req : TurnRequest) (db : ChatDB) (cid : Nat) (conv : Conversation) (m : String)
    (hcid : req.conversationId = some cid)
    (hfound : db.conversations.find? (fun c => c.id == cid) = some conv)
    (hmode : req.mode = some "ai")
    (hm : req.message = some m)
    (hne : m ≠ "") :
    handlePOST tree rag req db =
      (ApiResponse.ok
        (rag m (joinSep "\n" ((lastN 6 (convMessages db cid)).map
          (fun msg => msg.role ++ ": " ++ msg.content))))
        [backToTreeOption] conv.id (db.nextId + 1) "ai" none,
       { conversations := db.conversations
         messages :=
           (db.messages ++
             [{ id := db.nextId, conversationId := conv.id, role := "user"
                content := m, messageType := "text", metadata := none
                timestamp := db.nextId }]) ++
           [{ id := db.nextId + 1, conversationId := conv.id, role := "assistant"
              content := rag m (joinSep "\n" ((lastN 6 (convMessages db cid)).map
                (fun msg => msg.role ++ ": " ++ msg.content)))
              messageType := "text"
              metadata := some { mode := "ai", options := [backToTreeOption]
                                 nextNodeId := none }
              timestamp := db.nextId + 1 }]
         nextId := db.nextId + 1 + 1 }) := by
  have hmt : truthy (some m) = true := by
    simp [truthy, hne]
  simp only [handlePOST, hcid, hfound, hmode, hm, hmt, Option.getD_some]
  simp [mkAssistantMessage]

/-- C6 witness for the amended claim: a concrete AI-mode turn. -/
theorem C6_ai_context_witness :
    (handlePOST sampleTree (fun q c => q ++ ":" ++ c)
        { message := some "hi", sessionId := none, conversationId := some 0
          mode := some "ai", currentNodeId := none, userChoice := none }
        { conversations := [{ id := 0, sessionId := "s" }], messages := []
          nextId := 1 }).1
      = ApiResponse.ok
          ("hi" ++ ":" ++ joinSep "\n"
            ((lastN 6 (convMessages
              { conversations := [{ id := 0, sessionId := "s" }], messages := []
                nextId := 1 } 0)).map
              (fun msg => msg.role ++ ": " ++ msg.content)))
          [backToTreeOption] 0 2 "ai" none :=
  congrArg Prod.fst
    (C6_ai_context sampleTree (fun q c => q ++ ":" ++ c)
      { message := some "hi", sessionId := none, conversationId := some 0
        mode := some "ai", currentNodeId := none, userChoice := none }
      { conversations := [{ id := 0, sessionId := "s" }], messages := []
        nextId := 1 } 0
      { id := 0, sessionId := "s" } "hi" rfl rfl rfl rfl (by decide))

end PersonalWeb
